import Mathlib

/-!
Verification development for the prcontrol backend (photo-reactor control
core).  The Lean definitions below are a shallow embedding of the Python
sources under `src/prcontrol/controller/`: pure functions become Lean
functions, stateful methods become explicit state passing, wall-clock reads
(`time.time()`, `datetime.now()`) become explicit `now : ℚ` parameters, and
fallible Python operations (failed `assert`, `KeyError`, `IndexError`,
`AttributeError`, `TypeError`) are modelled with `Except`/`Option` results.
Python `float` arithmetic is embedded as exact rational arithmetic `ℚ`;
machine integers in this code base are unbounded Python `int`, embedded as
`Int`.
-/

namespace PRControl

/-- Python runtime errors raised by the embedded code paths. -/
inductive PyError where
  | keyError
  | indexError
  | typeError
  | assertionError
  | attributeError (name : String)
deriving DecidableEq, Repr

/-- Temperature in hundredths of a degree Celsius
(`measurements.py`, class `Temperature`, `@frozen(order=True)` over the
single field `hundredth_celsius`). -/
structure Temperature where
  hundredth_celsius : Int
deriving DecidableEq, Repr

/-- The attrs-generated total order on `Temperature` compares the integral
representation. -/
instance : LT Temperature := ⟨fun a b => a.hundredth_celsius < b.hundredth_celsius⟩

instance (a b : Temperature) : Decidable (a < b) :=
  inferInstanceAs (Decidable (a.hundredth_celsius < b.hundredth_celsius))

/-- Current in milliamps (`measurements.py`, class `Current`,
`@frozen(order=True)` over the single field `milli_amps`). -/
structure Current where
  milli_amps : Int
deriving DecidableEq, Repr

/-- The `ampere` property of `Current`: `self.milli_amps / 1000.0`. -/
def Current.ampere (c : Current) : ℚ := (c.milli_amps : ℚ) / 1000

/-- The `from_milli_amps` factory of `Current`. -/
def Current.from_milli_amps (n : Int) : Current := ⟨n⟩

/-- Scalar multiplication on `Current` as the Python runtime resolves it.
`measurements.py` defines `Current` via `@frozen(order=True)` with the field
`milli_amps`, the static factory `from_milli_amps` and the `ampere` property;
neither the class body nor attrs generates `__mul__`/`__rmul__`, so evaluating
`current * scalar` (as `power_box.py` does in `activate_led`,
`self._led_max_current[led] * target_intensity`) raises `TypeError`. -/
def Current.mulScalar (_ : Current) (_ : ℚ) : Except PyError Current :=
  .error .typeError

/-- LED states (`common.py`, enum `LedState`). -/
inductive LedState where
  | undefined
  | low
  | high
  | blink_slow
  | blink_fast
deriving DecidableEq, Repr

/-- LED sides (`common.py`, enum `LedSide`). -/
inductive LedSide where
  | front
  | back
deriving DecidableEq, Repr

/-- Reaction lanes (`common.py`, enum `LedLane`). -/
inductive LedLane where
  | lane_1
  | lane_2
  | lane_3
deriving DecidableEq, Repr

/-- The `demux` helper of `LedLane` selecting a per-lane value. -/
def LedLane.demux {T : Type} (l : LedLane) (v1 v2 v3 : T) : T :=
  match l with
  | .lane_1 => v1
  | .lane_2 => v2
  | .lane_3 => v3

/-- An LED position: `(lane, side)` (`common.py`, class `LedPosition`). -/
structure LedPosition where
  lane : LedLane
  side : LedSide
deriving DecidableEq, Repr

/-- The six LED positions in iteration order of `LedPosition.led_iter`. -/
def LedPosition.led_iter : List LedPosition :=
  [⟨.lane_1, .front⟩, ⟨.lane_1, .back⟩,
   ⟨.lane_2, .front⟩, ⟨.lane_2, .back⟩,
   ⟨.lane_3, .front⟩, ⟨.lane_3, .back⟩]

/-- Python `int(q)` truncation toward zero, used for
`int(self._PWM_MAX_DGREE * (1 - intensity))` in `power_box.py`. -/
def pyInt (q : ℚ) : Int := if 0 ≤ q then ⌊q⌋ else -⌊-q⌋

/-- Python tuple indexing `l[i]` including negative-index wrap-around:
`l[-1]` is the last element; an index out of range raises `IndexError`. -/
def pyIndexList {α : Type} (l : List α) (i : Int) : Except PyError α :=
  if 0 ≤ i then
    if h : i.toNat < l.length then .ok (l.get ⟨i.toNat, h⟩) else .error .indexError
  else
    let j := (l.length : Int) + i
    if 0 ≤ j then
      if h : j.toNat < l.length then .ok (l.get ⟨j.toNat, h⟩) else .error .indexError
    else .error .indexError

/-!
Observable sensor state (`common.py`, lines 237-275).

A sensor-state class (`PowerBoxSensorState`, `ReactorBoxSensorState`) is an
attrs class whose every declared field except `callback` has
`sensor_observer_callback_dispatcher` as its `on_setattr` hook; the
`callback` field (built by `callable_field`) has a no-op setter.  The hook
body is generic in the attrs class, so we embed it generically: `F` is the
type of declared non-`callback` field descriptors, `V` the value type, and a
record holds the field valuation together with the contents of the
`callback` field (`None`, a single observer, or a list of observers — for
counting deliveries only the shape matters). -/

/-- Contents of the `callback` field of a sensor-state object: the
`SensorObserver` union type of `common.py` is `None`, one callable, or a
list of callables (embedded by its length). -/
inductive SensorObserverField where
  | none
  | single
  | list (n : Nat)
deriving DecidableEq, Repr

/-- A sensor-state object: the declared non-`callback` fields as a valuation
`F → V` plus the `callback` field. -/
structure SensorRecord (F V : Type) where
  fields : F → V
  callback : SensorObserverField

/-- One observer notification as delivered by
`sensor_observer_callback_dispatcher`: the pre-image object (`self`, still
holding the old value at delivery time), the evolved post-image
(`attrs.evolve(self, callback=None, attribute.name=value)`), the mutated
field descriptor (`attr`, Python `attribute`) and the new value. -/
structure SensorNotification (F V : Type) where
  old_fields : F → V
  old_callback : SensorObserverField
  new_fields : F → V
  new_callback : SensorObserverField
  attr : F
  value : V

/-- The `on_setattr` hook body (`common.py`, lines 244-264) for a write to a
declared sensor field `a` (so `attribute.name != "callback"` holds, and
`hasattr(self, "callback")` holds because `callback` is a declared field).
It returns the list of deliveries: none when `callback is None`, one call
for a single observer, one call per element for a list of observers. -/
def sensor_observer_callback_dispatcher {F V : Type} [DecidableEq F]
    (s : SensorRecord F V) (a : F) (v : V) : List (SensorNotification F V) :=
  let notif : SensorNotification F V :=
    { old_fields := s.fields
      old_callback := s.callback
      new_fields := Function.update s.fields a v
      new_callback := .none
      attr := a
      value := v }
  match s.callback with
  | .none => []
  | .single => [notif]
  | .list n => List.replicate n notif

/-- A write to a declared non-`callback` sensor field: attrs runs the
`on_setattr` hook (which performs the deliveries) and then assigns the value
the hook returns (the unmodified `value`). -/
def setSensorField {F V : Type} [DecidableEq F]
    (s : SensorRecord F V) (a : F) (v : V) :
    SensorRecord F V × List (SensorNotification F V) :=
  ({ fields := Function.update s.fields a v, callback := s.callback },
   sensor_observer_callback_dispatcher s a v)

/-!
PowerBox (`power_box.py`).

The box owns two private tables keyed by `LedPosition`: `_led_max_current`
and `_led_pid` (both empty at construction).  Commands sent to the relay and
servo peripherals are recorded as a list of `PBCmd`; a method that raises
reports the commands issued and the mutations performed before the raise. -/

/-- A command issued to a power-box peripheral. -/
inductive PBCmd where
  | relay_set_selected_value (led : LedPosition) (channel : Nat) (value : Bool)
  | sleep_10ms
  | servo_set_position (channel : Nat) (position : Int)
  | servo_set_enable (channel : Nat) (enable : Bool)
deriving DecidableEq, Repr

/-- The PID regulator state (`power_box.py`, class `PidController`), with the
gains `K_p = -0.2`, `T_i = 100000`, `T_d = 0.5` as keyword-default fields. -/
structure PidController where
  target_current : Current
  last_timepoint_sec : ℚ
  last_error : ℚ
  integral_error : ℚ
  intensity : ℚ
  K_p : ℚ := -(1/5)
  T_i : ℚ := 100000
  T_d : ℚ := 1/2
deriving DecidableEq, Repr

/-- The error function of the regulator: `current.ampere - target.ampere`. -/
def PidController.error_fun (c : PidController) (current : Current) : ℚ :=
  current.ampere - c.target_current.ampere

/-- One measurement update (`PidController.update_with_new_measurement`,
`power_box.py` lines 224-242).  `time.time()` is passed explicitly as `now`;
the method mutates the regulator and returns the new (unclamped) intensity.
The Lean total division only stands in for the Python float division under
`now ≠ last_timepoint_sec` (at `dt = 0` the Python code would raise
`ZeroDivisionError`); all theorems below assume `0 < dt`. -/
def PidController.update_with_new_measurement (c : PidController)
    (current : Current) (now : ℚ) : PidController × ℚ :=
  let delta_seconds := now - c.last_timepoint_sec
  let new_error := c.error_fun current
  let delta_error := new_error - c.last_error
  let derivative_error := delta_error / delta_seconds
  let integral_error := c.integral_error + new_error * delta_seconds
  let intensity := c.intensity +
    c.K_p * (new_error + integral_error / c.T_i + c.T_d * derivative_error)
  ({ c with
      integral_error := integral_error
      last_timepoint_sec := now
      last_error := new_error
      intensity := intensity },
   intensity)

/-- The bootstrapper installed by `activate_led`
(`power_box.py`, class `PidControllerBootstrapper`). -/
structure PidControllerBootstrapper where
  target_current : Current
deriving DecidableEq, Repr

/-- First-measurement initialisation
(`PidControllerBootstrapper.initialize`): intensity starts at
`0.5 * target.ampere`, integral and last error at zero, the clock at `now`
(`time.time()` passed explicitly). -/
def PidControllerBootstrapper.initialize (b : PidControllerBootstrapper)
    (_current : Current) (now : ℚ) : ℚ × PidController :=
  let intitial_intensity := b.target_current.ampere * (1/2)
  (intitial_intensity,
   { target_current := b.target_current
     last_timepoint_sec := now
     last_error := 0
     integral_error := 0
     intensity := intitial_intensity })

/-- Entry of the `_led_pid` table
(`type LedPid = PidController | PidControllerBootstrapper`). -/
inductive LedPid where
  | bootstrapper (b : PidControllerBootstrapper)
  | controller (c : PidController)
deriving DecidableEq, Repr

/-- The mutable tables of a `PowerBox` relevant to LED activation:
`_led_max_current` and `_led_pid`. -/
structure PowerBoxState where
  led_max_current : LedPosition → Option Current
  led_pid : LedPosition → Option LedPid

/-- A freshly constructed `PowerBox`: both tables are empty dicts. -/
def PowerBoxState.empty : PowerBoxState := ⟨fun _ => none, fun _ => none⟩

/-- The hard-coded servo channel map
(`PowerBox._get_servo_channel_from_led`): lane 1 F/B = 0/7, lane 2 = 1/8,
lane 3 = 2/9. -/
def servo_channel_from_led (led : LedPosition) : Nat :=
  match led with
  | ⟨.lane_1, .front⟩ => 0
  | ⟨.lane_1, .back⟩ => 7
  | ⟨.lane_2, .front⟩ => 1
  | ⟨.lane_2, .back⟩ => 8
  | ⟨.lane_3, .front⟩ => 2
  | ⟨.lane_3, .back⟩ => 9

/-- `PowerBox._activate_led_power`: close relay side 1, wait 10 ms, close
side 0 (fire-and-forget relay commands). -/
def activate_led_power (led : LedPosition) : List PBCmd :=
  [.relay_set_selected_value led 1 true, .sleep_10ms,
   .relay_set_selected_value led 0 true]

/-- `PowerBox._deactivate_led_power`: open relay side 0, wait 10 ms, open
side 1. -/
def deactivate_led_power (led : LedPosition) : List PBCmd :=
  [.relay_set_selected_value led 0 false, .sleep_10ms,
   .relay_set_selected_value led 1 false]

/-- `PowerBox._set_led_pwm_absolute_intensity`: asserts
`0.0 <= intensity <= 1.0` and `led in _led_max_current`, then commands the
servo position `int(PWM_MAX_DGREE * (1 - intensity))` with
`PWM_MAX_DGREE = 10000`. -/
def set_led_pwm_absolute_intensity (s : PowerBoxState) (led : LedPosition)
    (intensity : ℚ) : Except PyError (List PBCmd) :=
  if ¬ (0 ≤ intensity ∧ intensity ≤ 1) then .error .assertionError
  else if (s.led_max_current led).isNone then .error .assertionError
  else .ok [.servo_set_position (servo_channel_from_led led) (pyInt (10000 * (1 - intensity)))]

/-- `PowerBox._enable_led_pwm`: asserts `led in _led_max_current`, then
enables the servo channel. -/
def enable_led_pwm (s : PowerBoxState) (led : LedPosition) :
    Except PyError (List PBCmd) :=
  if (s.led_max_current led).isNone then .error .assertionError
  else .ok [.servo_set_enable (servo_channel_from_led led) true]

/-- `PowerBox._disable_led_pwm_controller`: disables the servo channel
(no precondition). -/
def disable_led_pwm_controller (led : LedPosition) : List PBCmd :=
  [.servo_set_enable (servo_channel_from_led led) false]

/-- `PowerBox.set_led_max_current` (`power_box.py` lines 586-590):
`assert 0 <= current.milli_amps <= 1000, "Max current is 1.0A."`, then store
the current in `_led_max_current`.  On a failed assertion nothing is
stored. -/
def set_led_max_current (s : PowerBoxState) (led : LedPosition)
    (current : Current) : Except PyError PowerBoxState :=
  if 0 ≤ current.milli_amps ∧ current.milli_amps ≤ 1000 then
    .ok { s with
            led_max_current := Function.update s.led_max_current led (some current) }
  else .error .assertionError

/-- Result of a `PowerBox` command method: the table state and the
peripheral commands issued up to the point where the method returned or
raised, plus the raised error if any. -/
structure PBStep where
  state : PowerBoxState
  cmds : List PBCmd
  err : Option PyError

/-- `PowerBox.activate_led` (`power_box.py` lines 592-609): assert a max
current is set and `0.0 <= target_intensity <= 1.0`; command PWM intensity
0, enable the servo channel, energise the relay pair; then install
`PidControllerBootstrapper(target = _led_max_current[led] * target_intensity)`.
The final step multiplies a `Current` by a float, which `Current` does not
support (`Current.mulScalar`), so it raises after the relay and servo
commands have been issued. -/
def activate_led (s : PowerBoxState) (led : LedPosition)
    (target_intensity : ℚ) : PBStep :=
  match s.led_max_current led with
  | none => ⟨s, [], some .assertionError⟩
  | some max_current =>
    if ¬ (0 ≤ target_intensity ∧ target_intensity ≤ 1) then
      ⟨s, [], some .assertionError⟩
    else
      match set_led_pwm_absolute_intensity s led 0 with
      | .error e => ⟨s, [], some e⟩
      | .ok c1 =>
        match enable_led_pwm s led with
        | .error e => ⟨s, c1, some e⟩
        | .ok c2 =>
          let c3 := activate_led_power led
          match Current.mulScalar max_current target_intensity with
          | .error e => ⟨s, c1 ++ c2 ++ c3, some e⟩
          | .ok target =>
            ⟨{ s with
                 led_pid := Function.update s.led_pid led
                   (some (.bootstrapper ⟨target⟩)) },
             c1 ++ c2 ++ c3, none⟩

/-- `PowerBox.deactivate_led` (`power_box.py` lines 611-618): open the
relays, then `self._led_pid.pop(led)` — a `dict.pop` without default, which
raises `KeyError` when no PID entry exists — then disable the servo
channel. -/
def deactivate_led (s : PowerBoxState) (led : LedPosition) : PBStep :=
  let c1 := deactivate_led_power led
  match s.led_pid led with
  | none => ⟨s, c1, some .keyError⟩
  | some _ =>
    ⟨{ s with led_pid := Function.update s.led_pid led none },
     c1 ++ disable_led_pwm_controller led, none⟩

/-- `PowerBox.is_led_active`: true iff a `_led_pid` entry exists. -/
def is_led_active (s : PowerBoxState) (led : LedPosition) : Bool :=
  (s.led_pid led).isSome

/-- The PID portion of `PowerBox._callback_lane_current`
(`power_box.py` lines 490-501): if no PID entry exists, return; otherwise a
bootstrapper is initialised or the controller updated, the resulting
intensity is clamped (`min(max(intensity, 0.0), 1.0)`) into the local
variable, and the clamped value is commanded to the PWM.  The returned pair
is the new table entry and the commanded intensity (`none` when the callback
returned early). -/
def callback_lane_current_pid (entry : Option LedPid) (current : Current)
    (now : ℚ) : Option LedPid × Option ℚ :=
  match entry with
  | none => (none, none)
  | some (.bootstrapper b) =>
    let ic := b.initialize current now
    (some (.controller ic.2), some (min (max ic.1 0) 1))
  | some (.controller c) =>
    let ci := c.update_with_new_measurement current now
    (some (.controller ci.1), some (min (max ci.2 0) 1))

/-!
Controller (`controller.py`): the ambient-temperature threshold machine and
the connection-LED logic. -/

/-- Per-signal threshold status (`controller.py`, enum `ThresholdStatus`). -/
inductive ThresholdStatus where
  | ok
  | exceeded
  | ok_again
  | abort
deriving DecidableEq, Repr

/-- An action raised towards the experiment supervisor for one lane. -/
inductive LaneAction where
  | register_error (lane : LedLane)
  | cancel_experiment (lane : LedLane)
deriving DecidableEq, Repr

/-- `Controller._add_event_on_all_lanes`: the event string is appended on
lanes 1, 2 and 3. -/
def add_event_on_all_lanes (msg : String) : List (LedLane × String) :=
  [(.lane_1, msg), (.lane_2, msg), (.lane_3, msg)]

/-- `Controller._cancel_all_experiments`: register an error and cancel on
every lane. -/
def cancel_all_experiments : List LaneAction :=
  [.register_error .lane_1, .register_error .lane_2, .register_error .lane_3,
   .cancel_experiment .lane_1, .cancel_experiment .lane_2, .cancel_experiment .lane_3]

/-- Outcome of one invocation of the ambient-temperature observer: the new
threshold status, the events appended (each broadcast entry names its lane),
the supervisor actions raised, and the state commanded to the power-box
`led_warning_temp_ambient`. -/
structure AmbientTempResult where
  status : ThresholdStatus
  events : List (LedLane × String)
  actions : List LaneAction
  led : LedState
deriving DecidableEq, Repr

/-- `Controller._observer_ambient_temp` (`controller.py` lines 726-778)
with the configured thresholds `threshold_warn_ambient_temp` (`warnT`) and
`threshold_abort_ambient_temp` (`abortT`) and the stored
`state.ambient_temp_status` (`st`).  The branch structure mirrors the
source: abort (on `temp > abort` or a prior ABORT), else warn
(`temp > warn`), else OK_AGAIN (when the status was EXCEEDED), else hold;
afterwards the warning LED is driven from the resulting status. -/
def ambient_temp_transition (warnT abortT : Temperature)
    (st : ThresholdStatus) (temp : Temperature) :
    ThresholdStatus × List (LedLane × String) × List LaneAction :=
  if abortT < temp ∨ st = .abort then
    (.abort,
     add_event_on_all_lanes "Ambient Temperature exceeded critical threshold",
     cancel_all_experiments)
  else if warnT < temp then
    (.exceeded,
     add_event_on_all_lanes "Ambient Temperature exceeded first threshold",
     [])
  else if st = .exceeded then
    (.ok_again,
     add_event_on_all_lanes "Ambient Temperature back to normal",
     [])
  else (st, [], [])

/-- The final LED assignment of `_observer_ambient_temp`
(`controller.py` lines 768-778), driven by the resulting status:
`OK → HIGH`, `EXCEEDED`/`ABORT → LOW`, `OK_AGAIN → BLINK_SLOW`. -/
def ambient_warning_led (s : ThresholdStatus) : LedState :=
  match s with
  | .ok => .high
  | .exceeded => .low
  | .abort => .low
  | .ok_again => .blink_slow

/-- The full observer invocation: the transition followed by the LED
assignment from the new status. -/
def observer_ambient_temp (warnT abortT : Temperature)
    (st : ThresholdStatus) (temp : Temperature) : AmbientTempResult :=
  let step := ambient_temp_transition warnT abortT st temp
  ⟨step.1, step.2.1, step.2.2, ambient_warning_led step.1⟩

/-- The connection-related controller state: the two `ControllerState`
connection flags and the state last commanded to the power-box
`led_connected` (its `StatusLeds` property box, `UNDEFINED` before any
assignment). -/
structure ConnLedState where
  reactor_box_connected : Bool
  power_box_connected : Bool
  led_connected : LedState
deriving DecidableEq, Repr

/-- A TCP connection-state change delivered to the Controller. -/
inductive ConnEvent where
  | reactor_connected
  | reactor_disconnected
  | power_connected
  | power_disconnected
deriving DecidableEq, Repr

/-- `Controller._set_connected_led` (`controller.py` lines 416-429): when
both boxes are connected, command `led_connected = BLINK_FAST`; otherwise
the method issues no LED command (the source comment notes that with a box
disconnected there is no connection over which to drive the LED). -/
def set_connected_led (s : ConnLedState) : ConnLedState :=
  if s.reactor_box_connected ∧ s.power_box_connected then
    { s with led_connected := .blink_fast }
  else s

/-- The four connection callbacks of the Controller
(`controller.py` lines 392-414):  a connect callback sets the flag and
re-initialises the box (for the power box, `PowerBox.initialize` commands
`led_connected = HIGH`, line 396 of `power_box.py`; `ReactorBox.initialize`
touches only the reactor panel), a disconnect callback clears the flag; all
four end by calling `_set_connected_led`. -/
def connection_callback (s : ConnLedState) (e : ConnEvent) : ConnLedState :=
  match e with
  | .reactor_connected => set_connected_led { s with reactor_box_connected := true }
  | .reactor_disconnected => set_connected_led { s with reactor_box_connected := false }
  | .power_connected =>
    set_connected_led { s with power_box_connected := true, led_connected := .high }
  | .power_disconnected => set_connected_led { s with power_box_connected := false }

/-- The initial connection state: `ControllerState.default` sets both
connection flags to `True`; no LED command has been issued yet. -/
def initialConnLedState : ConnLedState := ⟨true, true, .undefined⟩

/-!
Configuration records (`configuration.py`).  Python `float` fields become
`ℚ`, `int` becomes `Int`, tuples become lists. -/

/-- One point of an LED emission spectrum (`configuration.py`, class
`EmmissionPair`). -/
structure EmmissionPair where
  wavelength : Int
  intensity : ℚ
deriving DecidableEq, Repr

/-- One event-log entry (`configuration.py`, class `EventPair`). -/
structure EventPair where
  timepoint : ℚ
  event : String
deriving DecidableEq, Repr

/-- One measured-data record (`configuration.py`, class
`MeasuredDataAtTimePoint`). -/
structure MeasuredDataAtTimePoint where
  timepoint : ℚ
  temperature_thermocouple : ℚ
  ambient_temp_strombox : ℚ
  ambient_temp_photobox : ℚ
  voltage_lane1 : ℚ
  current_lane1 : ℚ
  ir_temp_lane1 : ℚ
  voltage_lane2 : ℚ
  current_lane2 : ℚ
  ir_temp_lane2 : ℚ
  voltage_lane3 : ℚ
  current_lane3 : ℚ
  ir_temp_lane3 : ℚ
  uv_index : ℚ
  ambient_light : ℚ
deriving DecidableEq, Repr

/-- An LED descriptor (`configuration.py`, class `LED`). -/
structure LED where
  uid : Int
  name : String
  fwhm : Int
  max_of_emission : Int
  min_wavelength : Int
  max_wavelength : Int
  color : String
  max_current : Int
  manufacturer_id : Int
  order_id : Int
  date_soldering : String
  soldered_by : String
  operating_time : ℚ
  defect : Bool
  emission_spectrum : List EmmissionPair
  emission_spectrum_recorded_on : String
deriving DecidableEq, Repr

/-- The `is_uv` predicate of `LED`: `min_wavelength <= 400`. -/
def LED.is_uv (l : LED) : Bool := l.min_wavelength ≤ 400

/-- A bricklet descriptor (`configuration.py`, class
`TinkerforgeBricklet`). -/
structure TinkerforgeBricklet where
  uid : Int
  name : String
  version : String
  defective : Bool
  date_bought : String
deriving DecidableEq, Repr

/-- A hardware configuration (`configuration.py`, class `HardwareConfig`). -/
structure HardwareConfig where
  uid : Int
  name : String
  tinkerforge_bricklets : List TinkerforgeBricklet
  software_version : String
  date : String
  default_distance_led_vial : ℚ
  default_position_thermocouple : String
  default_pwm_channels : List ℚ
  default_temperature_threshold : ℚ
  default_uv_threshold : ℚ
  default_sensor_query_interval : ℚ
  default_reaction_vessel_volume : ℚ
deriving DecidableEq, Repr

/-- An experiment template (`configuration.py`, class
`ExperimentTemplate`). -/
structure ExperimentTemplate where
  uid : Int
  name : String
  date : String
  config_file : HardwareConfig
  active_lane : Int
  led_front : LED
  led_front_intensity : Int
  led_front_distance_to_vial : ℚ
  led_front_exposure_time : ℚ
  led_back : LED
  led_back_intensity : Int
  led_back_distance_to_vial : ℚ
  led_back_exposure_time : ℚ
  time_points_sample_taking : List Int
  position_thermocouple : String
deriving DecidableEq, Repr

/-- A finished experiment record (`configuration.py`, class
`Experiment`). -/
structure Experiment where
  uid : Int
  name : String
  lab_notebook_entry : String
  date : String
  config_file : HardwareConfig
  active_lane : Int
  led_front : LED
  led_front_intensity : Int
  led_front_distance_to_vial : ℚ
  led_front_exposure_time : ℚ
  led_back : LED
  led_back_intensity : Int
  led_back_distance_to_vial : ℚ
  led_back_exposure_time : ℚ
  time_points_sample_taking : List Int
  size_sample : ℚ
  parallel_experiments : List Int
  position_thermocouple : String
  error_occured : Bool
  experiment_cancelled : Bool
  event_log : List EventPair
  measured_data : List MeasuredDataAtTimePoint
deriving DecidableEq, Repr

/-!
Experiment runner (`experiment.py`).

`experiment.py` begins with `from datetime import datetime, timedelta`, so
inside the module the name `datetime` denotes the `datetime.datetime`
class.  The three timer-arming methods (`next_sample_in`, `led_front_time`,
`led_back_time`) each evaluate `datetime.timedelta(seconds=timespan)`; the
`datetime.datetime` class has no attribute `timedelta`, so that lookup
raises `AttributeError` before any timer field is assigned.  The embedding
reflects this: the three methods return
`Except.error (.attributeError "timedelta")`.

Wall-clock reads (`datetime.now()`, `datetime.today()`) are passed in as
explicit `now : ℚ` / `today : String` parameters.  The runner's callbacks
into the supervisor (`set_intensity_*`, `update_led_*`, `end_experiment`,
`take_sample`) are recorded as emitted `RunnerOut` values. -/

/-- The timer of a runner (`experiment.py`, class `Timer`).  The Python
`__init__` leaves `running`, `paused` and the three `time_remaining_*`
fields unassigned until `start`/`pause` run; the embedding initialises them
to `false`/`0` — no embedded code path reads them before they are assigned
in the modelled scenarios. -/
structure Timer where
  measure_interval : ℚ
  datetime_start : ℚ
  datetime_led_front : ℚ
  datetime_led_back : ℚ
  datetime_next_sample : ℚ
  time_remaining_led_front : ℚ
  time_remaining_led_back : ℚ
  time_remaining_next_sample : ℚ
  time_led_front_set : Bool
  time_led_back_set : Bool
  time_next_sample_set : Bool
  running : Bool
  paused : Bool
deriving DecidableEq, Repr

/-- `Timer.__init__` with the construction wall-clock `now`. -/
def Timer.init (measure_interval : ℚ) (now : ℚ) : Timer :=
  { measure_interval := measure_interval
    datetime_start := now
    datetime_led_front := now
    datetime_led_back := now
    datetime_next_sample := now
    time_remaining_led_front := 0
    time_remaining_led_back := 0
    time_remaining_next_sample := 0
    time_led_front_set := false
    time_led_back_set := false
    time_next_sample_set := false
    running := false
    paused := false }

/-- `Timer.next_sample_in` (`experiment.py` lines 70-74): the body evaluates
`datetime.timedelta(seconds=timespan)` where `datetime` is the
`datetime.datetime` class, which has no attribute `timedelta`; the call
raises `AttributeError` before any field is assigned. -/
def Timer.next_sample_in (_ : Timer) (_timespan : ℚ) : Except PyError Timer :=
  .error (.attributeError "timedelta")

/-- `Timer.led_front_time` (`experiment.py` lines 76-80): raises
`AttributeError` on `datetime.timedelta`, as in `next_sample_in`. -/
def Timer.led_front_time (_ : Timer) (_timespan : ℚ) : Except PyError Timer :=
  .error (.attributeError "timedelta")

/-- `Timer.led_back_time` (`experiment.py` lines 82-86): raises
`AttributeError` on `datetime.timedelta`, as in `next_sample_in`. -/
def Timer.led_back_time (_ : Timer) (_timespan : ℚ) : Except PyError Timer :=
  .error (.attributeError "timedelta")

/-- `Timer.start`: record the start time and set `running`
(the embedding does not model the polling thread the method spawns). -/
def Timer.start (t : Timer) (now : ℚ) : Timer :=
  { t with datetime_start := now, running := true }

/-- `Timer.stop`: clear `running`. -/
def Timer.stop (t : Timer) : Timer := { t with running := false }

/-- `Timer.reset`: clear the three one-shot flags. -/
def Timer.reset (t : Timer) : Timer :=
  { t with
      time_led_front_set := false
      time_led_back_set := false
      time_next_sample_set := false }

/-- `Timer.pause`: record the remaining deltas and mark paused. -/
def Timer.pause (t : Timer) (now : ℚ) : Timer :=
  { t with
      time_remaining_led_front := t.datetime_led_front - now
      time_remaining_led_back := t.datetime_led_back - now
      time_remaining_next_sample := t.datetime_next_sample - now
      paused := true }

/-- `Timer.resume`: re-arm the deadlines from the recorded remaining deltas
and clear `paused`. -/
def Timer.resume (t : Timer) (now : ℚ) : Timer :=
  { t with
      datetime_led_front := now + t.time_remaining_led_front
      datetime_led_back := now + t.time_remaining_led_back
      datetime_next_sample := now + t.time_remaining_next_sample
      paused := false }

/-- `Timer.time_since_start`: seconds since `datetime_start`. -/
def Timer.time_since_start (t : Timer) (now : ℚ) : ℚ := now - t.datetime_start

/-- A callback emitted by an `ExperimentRunner` towards the supervisor /
controller / power box. -/
inductive RunnerOut where
  | set_intensity_front (intensity : Int)
  | set_intensity_back (intensity : Int)
  | update_led_front (state : LedState)
  | update_led_back (state : LedState)
  | end_experiment (data : Experiment)
  | take_sample
deriving DecidableEq, Repr

/-- The state of one `ExperimentRunner` (`experiment.py` lines 171-236).
Field names follow the source; `template` is the "Nullable" template slot
(absent until `start_experiment` assigns it). -/
structure ExperimentRunner where
  timer : Timer
  template : Option ExperimentTemplate
  state_sample : Nat
  state_led_front : Bool
  state_led_back : Bool
  is_running : Bool
  needs_sample : Bool
  _measurements : List MeasuredDataAtTimePoint
  _events : List EventPair
  _canceled : Bool
  _neighbours : List Int
  _error : Bool
  _date : String
  _lane : LedLane
  _uid : Int
deriving DecidableEq, Repr

/-- `ExperimentRunner.__init__` for a lane (callback wiring is modelled by
`RunnerOut` emission; `measureIntervall` is the timer's measure interval). -/
def ExperimentRunner.init (lane : LedLane) (measureIntervall : ℚ) (now : ℚ) :
    ExperimentRunner :=
  { timer := Timer.init measureIntervall now
    template := none
    state_sample := 0
    state_led_front := false
    state_led_back := false
    is_running := false
    needs_sample := false
    _measurements := []
    _events := []
    _canceled := false
    _neighbours := []
    _error := false
    _date := ""
    _lane := lane
    _uid := 0 }

/-- Result of one runner method: the runner state and the callbacks emitted
up to the point where the method returned or raised, plus the raised error
if any. -/
structure RunnerStep where
  runner : ExperimentRunner
  outs : List RunnerOut
  err : Option PyError
deriving DecidableEq, Repr

/-- The attribute names ever assigned on an `ExperimentRunner` instance
(`__init__` plus `start_experiment`).  The class body contains only
annotations, which create no attributes; in particular no attribute named
`date` ever exists (only `_date`). -/
def runnerAttrNames : List String :=
  ["timer", "template", "state_sample", "state_led_front", "state_led_back",
   "is_running", "needs_sample", "_measurements", "_events", "_canceled",
   "_neighbours", "_error", "_date", "_lane", "_uid",
   "set_intensity_front", "set_intensity_back", "end_experiment",
   "update_led_front", "update_led_back", "measure", "take_sample"]

/-- The attribute lookup `self.date` performed by
`ExperimentRunner._finish_experiment` (`experiment.py` line 323): the
instance holds `_date` but no attribute `date` (see `runnerAttrNames`), so
the lookup raises `AttributeError`. -/
def ExperimentRunner.getattr_date (r : ExperimentRunner) :
    Except PyError String :=
  if "date" ∈ runnerAttrNames then .ok r._date
  else .error (.attributeError "date")

/-- The `Experiment(...)` record built by
`ExperimentRunner._finish_experiment` (`experiment.py` lines 319-342), given
the template `t` and the value `date` the `self.date` lookup would have
produced. -/
def mkExperimentData (r : ExperimentRunner) (t : ExperimentTemplate)
    (date : String) : Experiment :=
  { uid := r._uid
    name := t.name
    lab_notebook_entry := ""
    date := date
    config_file := t.config_file
    active_lane := r._lane.demux 1 2 3
    led_front := t.led_front
    led_front_intensity := t.led_front_intensity
    led_front_distance_to_vial := t.led_front_distance_to_vial
    led_front_exposure_time := t.led_front_exposure_time
    led_back := t.led_back
    led_back_intensity := t.led_back_intensity
    led_back_distance_to_vial := t.led_back_distance_to_vial
    led_back_exposure_time := t.led_back_exposure_time
    time_points_sample_taking := t.time_points_sample_taking
    size_sample := 0
    parallel_experiments := r._neighbours
    position_thermocouple := t.position_thermocouple
    error_occured := r._error
    experiment_cancelled := r._canceled
    event_log := r._events
    measured_data := r._measurements }

/-- `ExperimentRunner._finish_experiment` (`experiment.py` lines 316-343):
clear `is_running`, stop the timer, then build the `Experiment` record.  The
keyword arguments are evaluated in source order: `self.template.name` is
read before `date=self.date`; the latter raises `AttributeError` (the
attribute is `_date`), so `end_experiment` is never called. -/
def ExperimentRunner.finish_experiment (r : ExperimentRunner) : RunnerStep :=
  let r1 := { r with is_running := false, timer := r.timer.stop }
  match r1.template with
  | none => ⟨r1, [], some (.attributeError "template")⟩
  | some t =>
    match r1.getattr_date with
    | .error e => ⟨r1, [], some e⟩
    | .ok d => ⟨r1, [.end_experiment (mkExperimentData r1 t d)], none⟩

/-- `ExperimentRunner.cancel` (`experiment.py` lines 299-304): assert
running, set `_canceled`, drive both lane status LEDs LOW, then
`_finish_experiment`. -/
def ExperimentRunner.cancel (r : ExperimentRunner) : RunnerStep :=
  if r.is_running = false then ⟨r, [], some .assertionError⟩
  else
    let r1 := { r with _canceled := true }
    let s := r1.finish_experiment
    ⟨s.runner, [.update_led_back .low, .update_led_front .low] ++ s.outs, s.err⟩

/-- `ExperimentRunner.resume_experiment` (`experiment.py` lines 277-281):
assert running, resume the timer, drive both lane status LEDs HIGH. -/
def ExperimentRunner.resume_experiment (r : ExperimentRunner) (now : ℚ) :
    RunnerStep :=
  if r.is_running = false then ⟨r, [], some .assertionError⟩
  else
    ⟨{ r with timer := r.timer.resume now },
     [.update_led_back .high, .update_led_front .high], none⟩

/-- `ExperimentRunner.sample_was_taken` (`experiment.py` lines 283-292):
assert running and `needs_sample`; clear `needs_sample`; compute
`timestamp = time_points[state_sample] - time_points[state_sample - 1]`
(Python indexing, so `state_sample - 1 = -1` wraps to the last element and
`state_sample = len` raises `IndexError`); arm the next sample timer with
it (`Timer.next_sample_in`, which raises `AttributeError`); then
`resume_experiment`.  No event is appended by this method. -/
def ExperimentRunner.sample_was_taken (r : ExperimentRunner) (now : ℚ) :
    RunnerStep :=
  if r.is_running = false then ⟨r, [], some .assertionError⟩
  else if r.needs_sample = false then ⟨r, [], some .assertionError⟩
  else
    let r1 := { r with needs_sample := false }
    match r1.template with
    | none => ⟨r1, [], some (.attributeError "template")⟩
    | some t =>
      let tp := t.time_points_sample_taking
      match pyIndexList tp (r1.state_sample : Int) with
      | .error e => ⟨r1, [], some e⟩
      | .ok a =>
        match pyIndexList tp ((r1.state_sample : Int) - 1) with
        | .error e => ⟨r1, [], some e⟩
        | .ok b =>
          let timestamp : Int := a - b
          match r1.timer.next_sample_in (timestamp : ℚ) with
          | .error e => ⟨r1, [], some e⟩
          | .ok t2 =>
            let s := ExperimentRunner.resume_experiment { r1 with timer := t2 } now
            ⟨s.runner, s.outs, s.err⟩

/-- `ExperimentRunner.start_experiment` (`experiment.py` lines 240-269):
reset the run state and data collection, reset the timer, arm the back and
front LED timers (`Timer.led_back_time` first, as in the source — it raises
`AttributeError` on `datetime.timedelta`), index
`time_points_sample_taking[0]` (IndexError on an empty tuple), arm the
sample timer, start the timer, then emit the intensity and status-LED
callbacks. -/
def ExperimentRunner.start_experiment (r : ExperimentRunner)
    (template : ExperimentTemplate) (uid : Int) (now : ℚ) (today : String) :
    RunnerStep :=
  let r1 := { r with
      state_sample := 0
      state_led_back := true
      state_led_front := true
      is_running := true
      needs_sample := false
      template := some template
      _measurements := []
      _events := []
      _neighbours := []
      _canceled := false
      _error := false
      _date := today
      _uid := uid }
  let r2 := { r1 with timer := r1.timer.reset }
  match r2.timer.led_back_time template.led_back_exposure_time with
  | .error e => ⟨r2, [], some e⟩
  | .ok tA =>
    match tA.led_front_time template.led_front_exposure_time with
    | .error e => ⟨{ r2 with timer := tA }, [], some e⟩
    | .ok tB =>
      match pyIndexList template.time_points_sample_taking 0 with
      | .error e => ⟨{ r2 with timer := tB }, [], some e⟩
      | .ok t0 =>
        match tB.next_sample_in (t0 : ℚ) with
        | .error e => ⟨{ r2 with timer := tB }, [], some e⟩
        | .ok tC =>
          let tD := tC.start now
          ⟨{ r2 with timer := tD },
           [.set_intensity_back template.led_back_intensity,
            .set_intensity_front template.led_front_intensity,
            .update_led_back .high, .update_led_front .high], none⟩

/-!
Concrete sample values used to instantiate the theorems below.  The LED,
hardware-config and template values follow the fixtures of
`tests/test_experiment.py` (`get_template_with`), restricted to the fields
the source `ExperimentTemplate` class actually declares. -/

/-- Position lane 1 / front. -/
def pos_1f : LedPosition := ⟨.lane_1, .front⟩

/-- An LED descriptor with the fixture values of the test suite. -/
def sampleLed : LED :=
  { uid := 1
    name := "Name"
    fwhm := 1
    max_of_emission := 1
    min_wavelength := 1
    max_wavelength := 1
    color := ""
    max_current := 1
    manufacturer_id := 1
    order_id := 1
    date_soldering := ""
    soldered_by := ""
    operating_time := 1
    defect := false
    emission_spectrum := []
    emission_spectrum_recorded_on := "" }

/-- A hardware configuration with the fixture values of the test suite. -/
def sampleHardwareConfig : HardwareConfig :=
  { uid := 1
    name := "Name"
    tinkerforge_bricklets := []
    software_version := ""
    date := ""
    default_distance_led_vial := 1
    default_position_thermocouple := ""
    default_pwm_channels := []
    default_temperature_threshold := 20
    default_uv_threshold := 1
    default_sensor_query_interval := 1
    default_reaction_vessel_volume := 1 }

/-- A template with the given exposure durations and sample timepoints
(after `get_template_with` in the test suite). -/
def template_with (duration_front duration_back : ℚ) (samples : List Int) :
    ExperimentTemplate :=
  { uid := 1
    name := "Name"
    date := "Today"
    config_file := sampleHardwareConfig
    active_lane := 1
    led_front := sampleLed
    led_front_intensity := 1
    led_front_distance_to_vial := 1
    led_front_exposure_time := duration_front
    led_back := { sampleLed with uid := 2 }
    led_back_intensity := 1
    led_back_distance_to_vial := 1
    led_back_exposure_time := duration_back
    time_points_sample_taking := samples
    position_thermocouple := "bla" }

/-- The power-box table state after a successful
`set_led_max_current(pos_1f, 500 mA)` on a fresh box. -/
def powerBoxAfterMaxCurrent : PowerBoxState :=
  match set_led_max_current PowerBoxState.empty pos_1f ⟨500⟩ with
  | .ok s => s
  | .error _ => PowerBoxState.empty

/-- A runner that is running with `needs_sample = true`, whose two sample
timepoints `(1, 2)` are both consumed (`state_sample = 2`) and whose LEDs
are both done — the configuration in which the specification expects
`sample_was_taken` to finalize. -/
def c4SampleRunner : ExperimentRunner :=
  { ExperimentRunner.init .lane_1 1 0 with
      template := some (template_with 5 5 [1, 2])
      state_sample := 2
      state_led_front := false
      state_led_back := false
      is_running := true
      needs_sample := true }

/-- A running runner on lane 1 (template installed, both LEDs on), ready to
be cancelled. -/
def c5SampleRunner : ExperimentRunner :=
  { ExperimentRunner.init .lane_1 1 0 with
      template := some (template_with 10 10 [1, 2, 5])
      state_led_front := true
      state_led_back := true
      is_running := true
      _date := "2026-10-12" }

/-- An initialized PID regulator (default gains) for a 1000 mA target whose
intensity is already at 0.9 — one measurement of 0 mA drives the stored
intensity above 1. -/
def samplePid : PidController :=
  { target_current := ⟨1000⟩
    last_timepoint_sec := 0
    last_error := 0
    integral_error := 0
    intensity := 9/10 }

/-!
Theorems settling the claims. -/

/-- Claim C1.  The claim states that `PowerBox.deactivate_led(p)` for a
never-activated position completes without error, is a no-op on the PID
table only, and leaves the servo channel disabled.  The code instead raises:
on a fresh power box, `deactivate_led(lane 1, front)` issues the relay-open
commands and then raises `KeyError` from `self._led_pid.pop(led)`, so the
servo channel is never disabled. -/
theorem deactivate_led_never_active_raises_keyerror :
    (deactivate_led PowerBoxState.empty pos_1f).err = some PyError.keyError
    ∧ (deactivate_led PowerBoxState.empty pos_1f).cmds = deactivate_led_power pos_1f
    ∧ PBCmd.servo_set_enable (servo_channel_from_led pos_1f) false ∉
        (deactivate_led PowerBoxState.empty pos_1f).cmds
    ∧ is_led_active (deactivate_led PowerBoxState.empty pos_1f).state pos_1f = false := by
  refine ⟨rfl, rfl, by decide, rfl⟩

/-- Claim C2.  The claim states that `Current * scalar` yields a `Current`
and that `activate_led` installs a `PidControllerBootstrapper` with target
`max_current * intensity`.  The `Current` class defines no `__mul__`, so
after a successful `set_led_max_current(pos, 500 mA)` the call
`activate_led(pos, 0.5)` raises `TypeError` at the multiplication — after
the servo and relay commands have been issued — and installs no PID
entry. -/
theorem activate_led_current_mul_typeerror :
    set_led_max_current PowerBoxState.empty pos_1f ⟨500⟩ = .ok powerBoxAfterMaxCurrent
    ∧ (activate_led powerBoxAfterMaxCurrent pos_1f (1/2)).err = some PyError.typeError
    ∧ (activate_led powerBoxAfterMaxCurrent pos_1f (1/2)).state.led_pid pos_1f = none
    ∧ is_led_active (activate_led powerBoxAfterMaxCurrent pos_1f (1/2)).state pos_1f = false
    ∧ (activate_led powerBoxAfterMaxCurrent pos_1f (1/2)).cmds =
        [PBCmd.servo_set_position 0 10000, PBCmd.servo_set_enable 0 true]
          ++ activate_led_power pos_1f := by
  have hmc : powerBoxAfterMaxCurrent.led_max_current pos_1f = some ⟨500⟩ := rfl
  have hstep : activate_led powerBoxAfterMaxCurrent pos_1f (1/2) =
      ⟨powerBoxAfterMaxCurrent,
       [PBCmd.servo_set_position 0 10000, PBCmd.servo_set_enable 0 true]
         ++ activate_led_power pos_1f,
       some PyError.typeError⟩ := by
    simp only [activate_led, hmc, set_led_pwm_absolute_intensity,
      enable_led_pwm, pyInt, Current.mulScalar, Option.isNone_some]
    norm_num [pos_1f, servo_channel_from_led]
  refine ⟨rfl, ?_, ?_, ?_, ?_⟩
  · rw [hstep]
  · rw [hstep]
    rfl
  · rw [hstep]
    rfl
  · rw [hstep]

/-- Claim C3.  The claim states that `start_experiment` succeeds for a
template with no sample timepoints.  In the source, `start_experiment`
always raises before arming any timer: `Timer.led_back_time` evaluates
`datetime.timedelta(seconds=...)` on the `datetime.datetime` class, which
raises `AttributeError` (and, were that fixed, the unconditional
`time_points_sample_taking[0]` would raise `IndexError` on an empty tuple).
No callbacks are emitted, so no experiment can finalize at
`max(D_f, D_b)`. -/
theorem start_experiment_zero_samples_raises (r : ExperimentRunner)
    (tmpl : ExperimentTemplate) (uid : Int) (now : ℚ) (today : String)
    (_h : tmpl.time_points_sample_taking = []) :
    (r.start_experiment tmpl uid now today).err =
        some (PyError.attributeError "timedelta")
    ∧ (r.start_experiment tmpl uid now today).outs = [] := by
  exact ⟨rfl, rfl⟩

/-- Witness for claim C3's theorem at the concrete zero-sample template with
both exposure durations 5 s. -/
theorem start_experiment_zero_samples_raises_witness :
    (template_with 5 5 []).time_points_sample_taking = []
    ∧ ((ExperimentRunner.init .lane_1 1 0).start_experiment
        (template_with 5 5 []) 0 0 "2026-10-12").err =
          some (PyError.attributeError "timedelta") :=
  ⟨rfl, (start_experiment_zero_samples_raises (ExperimentRunner.init .lane_1 1 0)
      (template_with 5 5 []) 0 0 "2026-10-12" rfl).1⟩

/-- Claim C4.  The claim states that `sample_was_taken` on a runner with
`needs_sample = true` records exactly one "sample was taken" event and then
finalizes when all sample timepoints are consumed and both LEDs are done.
On such a runner (timepoints `(1, 2)`, `state_sample = 2`, both LEDs done)
the code instead raises `IndexError` computing
`time_points[state_sample] - time_points[state_sample - 1]`, appends no
event at all, emits no `end_experiment`, and does not finalize. -/
theorem sample_was_taken_no_event_raises_indexerror :
    (c4SampleRunner.sample_was_taken 10).err = some PyError.indexError
    ∧ (c4SampleRunner.sample_was_taken 10).outs = []
    ∧ (c4SampleRunner.sample_was_taken 10).runner._events = c4SampleRunner._events
    ∧ c4SampleRunner._events = []
    ∧ c4SampleRunner.needs_sample = true
    ∧ (c4SampleRunner.state_sample : Int) =
        ((template_with 5 5 [1, 2]).time_points_sample_taking.length : Int)
    ∧ c4SampleRunner.state_led_front = false
    ∧ c4SampleRunner.state_led_back = false := by
  refine ⟨by decide, by decide, by decide, rfl, rfl, by decide, rfl, rfl⟩

/-- Claim C5.  The claim states that runner finalization never raises and
that `cancel()` emits exactly one `end_experiment` call.  On a running
runner, `cancel()` marks the experiment cancelled and drives both status
LEDs LOW, but `_finish_experiment` then evaluates `self.date` — the
attribute is named `_date`, no attribute `date` exists — so finalization
raises `AttributeError` and `end_experiment` is never called. -/
theorem cancel_finalization_raises :
    c5SampleRunner.cancel.err = some (PyError.attributeError "date")
    ∧ c5SampleRunner.cancel.outs =
        [RunnerOut.update_led_back .low, RunnerOut.update_led_front .low]
    ∧ (c5SampleRunner.cancel.outs.countP fun o =>
        match o with
        | RunnerOut.end_experiment _ => true
        | _ => false) = 0
    ∧ c5SampleRunner.cancel.runner._canceled = true
    ∧ c5SampleRunner.cancel.runner.is_running = false := by
  refine ⟨by decide, by decide, by decide, by decide, by decide⟩

/-- Claim C6.  The ambient-temperature observer implements the four-state
threshold machine: any state moves to ABORT on a reading above the abort
threshold or from a prior ABORT (logging the critical message on all three
lanes and cancelling all experiments), EXCEEDED falls back to OK_AGAIN when
the reading is at or below the warn threshold, and after every reading the
warning LED is HIGH in OK, LOW in EXCEEDED or ABORT, and BLINK_SLOW in
OK_AGAIN. -/
theorem ambient_temp_threshold_machine (warnT abortT : Temperature)
    (st : ThresholdStatus) (temp : Temperature) (hw : warnT < abortT) :
    ((abortT < temp ∨ st = .abort) →
      (observer_ambient_temp warnT abortT st temp).status = .abort
      ∧ (observer_ambient_temp warnT abortT st temp).events =
          add_event_on_all_lanes "Ambient Temperature exceeded critical threshold"
      ∧ (observer_ambient_temp warnT abortT st temp).actions = cancel_all_experiments)
    ∧ (st = .exceeded → ¬ warnT < temp →
      (observer_ambient_temp warnT abortT st temp).status = .ok_again
      ∧ (observer_ambient_temp warnT abortT st temp).events =
          add_event_on_all_lanes "Ambient Temperature back to normal")
    ∧ ((observer_ambient_temp warnT abortT st temp).status = .ok →
        (observer_ambient_temp warnT abortT st temp).led = .high)
    ∧ (((observer_ambient_temp warnT abortT st temp).status = .exceeded
        ∨ (observer_ambient_temp warnT abortT st temp).status = .abort) →
        (observer_ambient_temp warnT abortT st temp).led = .low)
    ∧ ((observer_ambient_temp warnT abortT st temp).status = .ok_again →
        (observer_ambient_temp warnT abortT st temp).led = .blink_slow) := by
  have hled : (observer_ambient_temp warnT abortT st temp).led =
      ambient_warning_led (observer_ambient_temp warnT abortT st temp).status := rfl
  refine ⟨?_, ?_, ?_, ?_, ?_⟩
  · intro h1
    have ht : ambient_temp_transition warnT abortT st temp =
        (.abort,
         add_event_on_all_lanes "Ambient Temperature exceeded critical threshold",
         cancel_all_experiments) := by
      unfold ambient_temp_transition
      rw [if_pos h1]
    exact ⟨congrArg Prod.fst ht, congrArg (fun p => p.2.1) ht,
      congrArg (fun p => p.2.2) ht⟩
  · intro hst hnw
    have hna : ¬ (abortT < temp ∨ st = ThresholdStatus.abort) := by
      rintro (hlt | habort)
      · exact hnw (Int.lt_trans hw hlt)
      · rw [hst] at habort
        exact ThresholdStatus.noConfusion habort
    have ht : ambient_temp_transition warnT abortT st temp =
        (.ok_again,
         add_event_on_all_lanes "Ambient Temperature back to normal", []) := by
      unfold ambient_temp_transition
      rw [if_neg hna, if_neg hnw, if_pos hst]
    exact ⟨congrArg Prod.fst ht, congrArg (fun p => p.2.1) ht⟩
  · intro hok
    rw [hled, hok]
    rfl
  · rintro (hs | hs) <;> rw [hled, hs] <;> rfl
  · intro hs
    rw [hled, hs]
    rfl

/-- Witness for claim C6's theorem: warn 50.00 °C, abort 70.00 °C, state OK,
reading 75.00 °C — the machine aborts, cancels everything and drives the
LED LOW. -/
theorem ambient_temp_threshold_machine_witness :
    (observer_ambient_temp ⟨5000⟩ ⟨7000⟩ .ok ⟨7500⟩).status = .abort
    ∧ (observer_ambient_temp ⟨5000⟩ ⟨7000⟩ .ok ⟨7500⟩).actions = cancel_all_experiments
    ∧ (observer_ambient_temp ⟨5000⟩ ⟨7000⟩ .ok ⟨7500⟩).led = .low := by
  have h := ambient_temp_threshold_machine ⟨5000⟩ ⟨7000⟩ .ok ⟨7500⟩ (by decide)
  have h1 := h.1 (Or.inl (by decide))
  exact ⟨h1.1, h1.2.2, h.2.2.2.1 (Or.inr h1.1)⟩

/-- Counterexample to claim C7 as stated: after the reachable trace
"power box connects, then power box disconnects" from the initial controller
state, the power box is down but `led_connected` still holds `BLINK_FAST`,
not `LOW` — no code path ever commands `LOW` on a disconnect. -/
theorem connected_led_not_low_after_disconnect :
    (List.foldl connection_callback initialConnLedState
        [ConnEvent.power_connected, ConnEvent.power_disconnected]).power_box_connected
        = false
    ∧ (List.foldl connection_callback initialConnLedState
        [ConnEvent.power_connected, ConnEvent.power_disconnected]).led_connected
        = LedState.blink_fast
    ∧ LedState.blink_fast ≠ LedState.low := by
  refine ⟨rfl, rfl, by decide⟩

/-- Claim C7, amended.  After every connection-state change, if both boxes
are connected the power-box `led_connected` is commanded `BLINK_FAST`; a
disconnect change issues no LED command at all, leaving the previously
commanded state unchanged (the software cannot reach the LED without a
connection). -/
theorem connected_led_blink_fast_or_unchanged (s : ConnLedState) (e : ConnEvent) :
    ((connection_callback s e).reactor_box_connected = true ∧
        (connection_callback s e).power_box_connected = true →
      (connection_callback s e).led_connected = .blink_fast)
    ∧ (e = .reactor_disconnected ∨ e = .power_disconnected →
      (connection_callback s e).led_connected = s.led_connected) := by
  obtain ⟨r, p, l⟩ := s
  cases e <;> cases r <;> cases p <;>
    simp [connection_callback, set_connected_led]

/-- Witness for claim C7's amended theorem: a disconnect while the LED was
commanded `BLINK_FAST` leaves it `BLINK_FAST`. -/
theorem connected_led_blink_fast_or_unchanged_witness :
    (connection_callback ⟨true, true, .blink_fast⟩ .power_disconnected).led_connected
      = LedState.blink_fast :=
  (connected_led_blink_fast_or_unchanged ⟨true, true, .blink_fast⟩
    .power_disconnected).2 (Or.inr rfl)

/-- Counterexample to claim C8 as stated: one 0 mA measurement at
`dt = 1 s` on `samplePid` (target 1 A, stored intensity 0.9) leaves the
regulator's stored intensity at `600001/500000 > 1` — the clamp applies
only to the value commanded to the PWM (here 1), never to the stored
state. -/
theorem pid_stored_intensity_escapes_unit_interval :
    (callback_lane_current_pid (some (.controller samplePid)) ⟨0⟩ 1).1 =
      some (.controller { samplePid with
          last_timepoint_sec := 1
          last_error := -1
          integral_error := -1
          intensity := 600001/500000 })
    ∧ ¬ ((600001 : ℚ)/500000 ≤ 1)
    ∧ (callback_lane_current_pid (some (.controller samplePid)) ⟨0⟩ 1).2 = some 1 := by
  refine ⟨?_, by norm_num, ?_⟩ <;>
    norm_num [callback_lane_current_pid, PidController.update_with_new_measurement,
      PidController.error_fun, Current.ampere, samplePid, min_def, max_def]

/-- Claim C8, amended.  For `dt > 0` the measurement update follows the
specified formulas (`e = measured - target`, `integral += e*dt`,
`intensity += Kp*(e + integral/Ti + Td*(e - last_error)/dt)`), and
`_callback_lane_current` clamps into `[0,1]` only the intensity it commands
to the PWM; the regulator's stored intensity is the unclamped value. -/
theorem pid_update_formula_and_command_clamp (c : PidController)
    (current : Current) (now : ℚ) (_h : 0 < now - c.last_timepoint_sec) :
    (c.update_with_new_measurement current now).1.intensity
      = c.intensity + c.K_p * ((current.ampere - c.target_current.ampere)
          + (c.integral_error + (current.ampere - c.target_current.ampere)
              * (now - c.last_timepoint_sec)) / c.T_i
          + c.T_d * (((current.ampere - c.target_current.ampere) - c.last_error)
              / (now - c.last_timepoint_sec)))
    ∧ (c.update_with_new_measurement current now).1.integral_error
      = c.integral_error + (current.ampere - c.target_current.ampere)
          * (now - c.last_timepoint_sec)
    ∧ (c.update_with_new_measurement current now).1.last_error
      = current.ampere - c.target_current.ampere
    ∧ (c.update_with_new_measurement current now).1.last_timepoint_sec = now
    ∧ callback_lane_current_pid (some (.controller c)) current now
      = (some (.controller (c.update_with_new_measurement current now).1),
         some (min (max (c.update_with_new_measurement current now).1.intensity 0) 1)) := by
  exact ⟨rfl, rfl, rfl, rfl, rfl⟩

/-- Witness for claim C8's amended theorem at `samplePid`, a 0 mA
measurement and `now = 1` (so `dt = 1 > 0`). -/
theorem pid_update_formula_and_command_clamp_witness :
    (0 : ℚ) < 1 - samplePid.last_timepoint_sec
    ∧ (samplePid.update_with_new_measurement ⟨0⟩ 1).1.last_timepoint_sec = 1 :=
  ⟨by norm_num [samplePid],
   (pid_update_formula_and_command_clamp samplePid ⟨0⟩ 1 (by norm_num [samplePid])).2.2.2.1⟩

/-- Claim C9.  A write to a declared non-`callback` sensor field with a
single registered observer delivers exactly one notification carrying the
pre-image, the post-image, the field descriptor and the new value; the two
snapshots agree on every other declared field, the post-image holds the new
value at the mutated field, and the stored state after the write equals the
post-image valuation. -/
theorem sensor_write_single_notification {F V : Type} [DecidableEq F]
    (s : SensorRecord F V) (a : F) (v : V) (h : s.callback = .single) :
    (setSensorField s a v).2.length = 1
    ∧ ∀ n ∈ (setSensorField s a v).2,
        n.old_fields = s.fields
        ∧ n.attr = a
        ∧ n.value = v
        ∧ n.new_fields a = v
        ∧ (∀ g, g ≠ a → n.new_fields g = s.fields g)
        ∧ (setSensorField s a v).1.fields = n.new_fields
        ∧ (setSensorField s a v).1.callback = s.callback := by
  simp only [setSensorField, sensor_observer_callback_dispatcher, h]
  refine ⟨rfl, ?_⟩
  intro n hn
  rw [List.mem_singleton] at hn
  subst hn
  refine ⟨rfl, rfl, rfl, Function.update_same a v s.fields, ?_, rfl, trivial⟩
  intro g hg
  exact Function.update_noteq hg v s.fields

/-- Witness for claim C9's theorem: a two-field sensor record (fields
indexed by `Bool`) with a single observer; writing 5 to the field `true`
delivers exactly one notification. -/
theorem sensor_write_single_notification_witness :
    (setSensorField (⟨fun _ => 0, .single⟩ : SensorRecord Bool Nat) true 5).2.length = 1 :=
  (sensor_write_single_notification ⟨fun _ => 0, .single⟩ true 5 rfl).1

/-- Claim C10.  `set_led_max_current` accepts a current iff
`0 ≤ milli_amps ≤ 1000`; anything above 1000 mA fails the assertion and
nothing is stored; a successful call stores exactly the given current, so
every stored max current respects the 1 A cap. -/
theorem set_led_max_current_cap (s : PowerBoxState) (led : LedPosition)
    (c : Current) :
    ((set_led_max_current s led c).isOk = true ↔
      0 ≤ c.milli_amps ∧ c.milli_amps ≤ 1000)
    ∧ (1000 < c.milli_amps →
      set_led_max_current s led c = .error .assertionError)
    ∧ (∀ s2, set_led_max_current s led c = .ok s2 →
      s2.led_max_current led = some c
      ∧ 0 ≤ c.milli_amps ∧ c.milli_amps ≤ 1000) := by
  unfold set_led_max_current
  by_cases hb : 0 ≤ c.milli_amps ∧ c.milli_amps ≤ 1000
  · rw [if_pos hb]
    refine ⟨by simp [Except.isOk, Except.toBool, hb], ?_, ?_⟩
    · intro hgt
      exact absurd hb.2 (not_le.mpr hgt)
    · intro s2 hs2
      have : ({ s with led_max_current :=
          Function.update s.led_max_current led (some c) } : PowerBoxState) = s2 :=
        Except.ok.inj hs2
      subst this
      exact ⟨Function.update_same led (some c) s.led_max_current, hb⟩
  · rw [if_neg hb]
    refine ⟨by simp [Except.isOk, Except.toBool, hb], fun _ => rfl, ?_⟩
    intro s2 hs2
    exact Except.noConfusion hs2

/-- Witness for claim C10's theorem: 1200 mA is rejected by the
assertion. -/
theorem set_led_max_current_cap_witness :
    set_led_max_current PowerBoxState.empty pos_1f ⟨1200⟩ = .error .assertionError :=
  (set_led_max_current_cap PowerBoxState.empty pos_1f ⟨1200⟩).2.1 (by decide)

end PRControl
